import Mathlib

/-!
Shallow embedding of `src/scribdl/content/audiobook.py` (scribd-downloader).
Pure computations are translated directly; network responses are passed in
as explicit parameters; Python exceptions become constructors of `PyErr`;
Python `None`-able string fields become `Option String`.
-/

namespace Scribdl

/-- Failure kinds.  The first four model the Python exception classes the code
in `audiobook.py` can actually raise (`AttributeError` from calling `.group()`
on a failed `re.search`, `ValueError` from `list.remove` on a missing element,
`KeyError` from a missing dict key, `IndexError` from indexing an empty list).
`identifierNotFound` is the dedicated error name from the spec taxonomy;
it is included so claims about it can be stated, but no code path in
`audiobook.py` produces it. -/
inductive PyErr where
  | attributeError
  | valueError
  | keyError
  | indexError
  | identifierNotFound
  deriving DecidableEq, Repr

/-- A run of exactly `k` digits starts at the head of `s`
(the semantics of a k-digit regex window anchored here). -/
def hasWin (k : Nat) (s : List Char) : Bool :=
  (s.take k).length == k && (s.take k).all Char.isDigit

/-- Model of a Python `re.search` for `k` consecutive digits: scan positions
left to right and return the leftmost window of `k` consecutive digits,
`none` on no match. -/
def reSearch (k : Nat) : List Char → Option (List Char)
  | [] => if hasWin k [] then some [] else none
  | c :: rest =>
      if hasWin k (c :: rest) then some ((c :: rest).take k)
      else reSearch k rest

/-- All positions in `s` at which a window of `k` consecutive digits starts.
Specification-side definition used to state claims about identifier
extraction. -/
def winStarts (k : Nat) (s : List Char) : List Nat :=
  (List.range s.length).filter (fun p => hasWin k (s.drop p))

/-- The positions of the 9-digit windows of `s` (the candidate matches of
the regex pattern used for the scribd id), in increasing order. -/
def nineStarts (s : List Char) : List Nat :=
  winStarts 9 s

/-- The fields `ScribdAudioBook.__init__` sets from the URL alone
(before any network activity): the URL itself and the extracted
9-digit `scribd_id`. -/
structure SessionInit where
  audiobook_url : String
  scribd_id : String
  deriving DecidableEq, Repr

/-- Model of `ScribdAudioBook.__init__`: a `re.search` for nine consecutive
digits in the URL, followed by `.group()`.  When the search fails it returns
`None` and the
`.group()` call raises `AttributeError`.  No network request happens here;
the function depends on the URL alone. -/
def ScribdAudioBook.init (audiobook_url : String) : Except PyErr SessionInit :=
  match reSearch 9 audiobook_url.data with
  | some m => .ok ⟨audiobook_url, String.mk m⟩
  | none => .error .attributeError

/-- Model of Python single-character `str.split(sep)`: split into the list of
(possibly empty) chunks between occurrences of `sep`. -/
def splitOnChar (sep : Char) : List Char → List (List Char)
  | [] => [[]]
  | c :: rest =>
      if c = sep then [] :: splitOnChar sep rest
      else
        match splitOnChar sep rest with
        | [] => [[c]]
        | g :: gs => (c :: g) :: gs

/-- `audiobook_url.split("/")` as a list of strings. -/
def pySplitSlash (s : String) : List String :=
  (splitOnChar '/' s.data).map String.mk

/-- Model of Python `list.remove(x)`: delete the first occurrence of `x`,
raising `ValueError` when `x` is not present. -/
def pyRemove (x : String) (l : List String) : Except PyErr (List String) :=
  if x ∈ l then .ok (l.erase x) else .error .valueError

/-- Model of Python `l[-1]`: the last element, `IndexError` on an empty list. -/
def pyLast (l : List String) : Except PyErr String :=
  match l.getLast? with
  | some x => .ok x
  | none => .error .indexError

/-- Model of Python `str.replace(a, b)` for single-character arguments:
replace every occurrence of `a` by `b`. -/
def replaceChar (a b : Char) (s : String) : String :=
  String.mk (s.data.map (fun c => if c = a then b else c))

/-- The body of the `title` property of `ScribdAudioBook`:
`splits = audiobook_url.split("/")`, `splits.remove("")`,
`splits[-1].replace("-", " ")`. -/
def computeTitle (audiobook_url : String) : Except PyErr String := do
  let splits := pySplitSlash audiobook_url
  let splits ← pyRemove "" splits
  let last ← pyLast splits
  return replaceChar '-' ' ' last

/-- The file-name stem used by the `playlist` property:
`title.replace(" ", "_")`. -/
def titleStem (title : String) : String :=
  replaceChar ' ' '_' title

/-- Python truthiness of a `None`-able string: `None` and `""` are falsy,
every other string is truthy.  This is the test `if not self._field`
performed by every memoizing property of `ScribdAudioBook`. -/
def pyTruthy : Option String → Bool
  | none => false
  | some s => s ≠ ""

/-- The memoization pattern shared by the string-valued properties of
`ScribdAudioBook` (`if not self._x: self._x = <compute>; return self._x`),
instrumented with a `Bool` recording whether the property body re-ran the
computation (as opposed to returning the cached field).  `compute` stands for
the value the body would produce (for network-backed fields, given the
response passed in explicitly); on an exception the field keeps its old
value because the assignment never executes. -/
def memoAccess (compute : Except PyErr String) (memo : Option String) :
    Except PyErr String × Option String × Bool :=
  if pyTruthy memo then (.ok (memo.getD ""), memo, false)
  else
    match compute with
    | .ok v => (.ok v, some v, true)
    | .error e => (.error e, memo, true)

/-- The dictionary returned by `_scrape_audiobook`: keys `preview_url`,
`book_id` and `author_id` (the last may be `None` when no 8-digit run is
found in the last inline script block). -/
structure AudiobookKeys where
  preview_url : String
  book_id : String
  author_id : Option String
  deriving DecidableEq, Repr

/-- The `author_id` property: `if not self._author_id: self._author_id =
self.audiobook_keys["author_id"]; return self._author_id`, instrumented like
`memoAccess`.  `keys` is the (already memoized, always-truthy) scrape
dictionary, so the recomputation is a pure dict lookup. -/
def author_id_access (keys : AudiobookKeys) (memo : Option String) :
    Option String × Option String × Bool :=
  if pyTruthy memo then (memo, memo, false)
  else (keys.author_id, keys.author_id, true)

/-- The `title` property of `ScribdAudioBook` as a memoized accessor. -/
def title_access (audiobook_url : String) (memo : Option String) :
    Except PyErr String × Option String × Bool :=
  memoAccess (computeTitle audiobook_url) memo

/-- The `authenticate_url` property body: the listen-endpoint prefix
followed by `scribd_id`. -/
def authenticate_url_compute (scribd_id : String) : String :=
  "https://www.scribd.com/listen/" ++ scribd_id

/-- The `license_url` property body. -/
def license_url_compute (author_id book_id : String) : String :=
  "https://api.findawayworld.com/v4/accounts/scribd-" ++ author_id
    ++ "/audiobooks/" ++ book_id

/-- The `playlist_url` property body. -/
def playlist_url_compute (book_id : String) : String :=
  "https://api.findawayworld.com/v4/audiobooks/" ++ book_id ++ "/playlists"

/-- One record of the `licenses` array of the license-endpoint response;
`id` is `none` when the record lacks an `id` key. -/
structure LicenseRec where
  id : Option String
  deriving DecidableEq, Repr

/-- The parsed JSON body of the license-endpoint response; `licenses = none`
models a body whose top-level object lacks the `licenses` key. -/
structure LicenseResponse where
  licenses : Option (List LicenseRec)
  deriving DecidableEq, Repr

/-- The computation inside the `license_id` property:
`response_dict["licenses"][0]["id"]`.  A missing `licenses` key raises
`KeyError`, an empty list raises `IndexError` on `[0]`, and a first record
without an `id` key raises `KeyError`. -/
def licenseIdCompute (resp : LicenseResponse) : Except PyErr String := do
  let ls ← match resp.licenses with
    | some l => Except.ok l
    | none => Except.error PyErr.keyError
  let first ← match ls.head? with
    | some r => Except.ok r
    | none => Except.error PyErr.indexError
  match first.id with
  | some i => Except.ok i
  | none => Except.error PyErr.keyError

/-- The `license_id` property as a memoized accessor: on the compute path the
code fires the authenticate GET and the license GET (modelled by passing the
parsed license response in), then assigns `self._license_id`; an exception
propagates before the assignment, leaving the field unchanged. -/
def license_id_access (resp : LicenseResponse) (memo : Option String) :
    Except PyErr String × Option String × Bool :=
  memoAccess (licenseIdCompute resp) memo

/-- One entry of the `playlist` array of a server playlist record:
keys `url`, `part_number` and `chapter_number`. -/
structure TrackRec where
  url : String
  part_number : String
  chapter_number : String
  deriving DecidableEq, Repr

/-- `Track.__init__`: copies `url`, `part_number` and `chapter_number` out of
the raw record. -/
structure Track where
  url : String
  part_number : String
  chapter_number : String
  deriving DecidableEq, Repr

/-- The `Track` constructor applied to one raw playlist entry. -/
def Track.init (t : TrackRec) : Track :=
  ⟨t.url, t.part_number, t.chapter_number⟩

/-- A parsed playlist-endpoint response: keys `playlist`, `expires` and
`playlist_token` (the last two may be `None` on the fallback path). -/
structure PlaylistRec where
  playlist : List TrackRec
  expires : Option String
  playlist_token : Option String
  deriving DecidableEq, Repr

/-- `Playlist.__init__`: store the title, wrap each entry of
`playlist["playlist"]` as a `Track` (in order), and start with an empty
`download_paths` list. -/
structure Playlist where
  title : String
  tracks : List Track
  download_paths : List String
  deriving DecidableEq, Repr

/-- The `Playlist` constructor. -/
def Playlist.init (title : String) (p : PlaylistRec) : Playlist :=
  ⟨title, p.playlist.map Track.init, []⟩

/-- The single-entry fallback playlist record built by `make_playlist` when
`premium_cookies` is false: one track whose URL is the preview URL and whose
part and chapter numbers are the literal string `"preview"`. -/
def fallbackPlaylist (preview_url : String) : PlaylistRec :=
  ⟨[⟨preview_url, "preview", "preview"⟩], none, none⟩

/-- The `premium_cookies` property: `bool(self.author_id)`. -/
def premium_cookies (author_id : Option String) : Bool :=
  pyTruthy author_id

/-- `ScribdAudioBook.make_playlist`: branch on `premium_cookies`.  On the
premium branch the code POSTs the license id to the playlist endpoint and
returns the parsed response (`premiumResponse` here); on the fallback branch
it synthesizes the single-entry preview record. -/
def make_playlist (author_id : Option String) (preview_url : String)
    (premiumResponse : PlaylistRec) : PlaylistRec :=
  if premium_cookies author_id then premiumResponse
  else fallbackPlaylist preview_url

/-- The destination path computed for one track inside `Playlist.download`:
the title, an underscore, the chapter number of the track, then `.mp3`. -/
def trackPath (title : String) (t : Track) : String :=
  title ++ "_" ++ t.chapter_number ++ ".mp3"

/-- The loop body of `Playlist.download`, made explicit.  `ok i` tells
whether the transfer of the i-th track (0-based, counting from the start of
the whole playlist) succeeds; a failing transfer raises, aborting the loop
before the path of the failing track is appended.  Returns the final
`download_paths` list and whether the loop ran to completion. -/
def downloadLoop (title : String) (ok : Nat → Bool) :
    Nat → List Track → List String → List String × Bool
  | _, [], acc => (acc, true)
  | i, t :: ts, acc =>
      if ok i then downloadLoop title ok (i + 1) ts (acc ++ [trackPath title t])
      else (acc, false)

/-- `Playlist.download` under the transfer oracle `ok`: traverse the tracks
in order, appending each destination path to `download_paths` only after its
transfer completes, and abort on the first failure. -/
def Playlist.downloadRun (p : Playlist) (ok : Nat → Bool) : Playlist × Bool :=
  match downloadLoop p.title ok 0 p.tracks p.download_paths with
  | (paths, done) => ({ p with download_paths := paths }, done)

/-- For positive `k` the empty character list holds no k-digit window. -/
lemma hasWin_nil (k : Nat) (hk : 0 < k) : hasWin k [] = false := by
  simp [hasWin]
  omega

/-- `reSearch` returns exactly the window starting at the first (leftmost)
element of `winStarts`, and `none` when there is no window. -/
lemma reSearch_head (k : Nat) (hk : 0 < k) :
    ∀ s : List Char,
      reSearch k s = ((winStarts k s).head?).map (fun p => (s.drop p).take k)
  | [] => by
      simp [reSearch, winStarts, hasWin_nil k hk]
  | c :: rest => by
      by_cases h : hasWin k (c :: rest) = true
      · simp [reSearch, winStarts, h, List.range_succ_eq_map, List.filter_cons]
      · have h' : hasWin k (c :: rest) = false := by simpa using h
        have ih := reSearch_head k hk rest
        simp [reSearch, winStarts, h', List.range_succ_eq_map, List.filter_cons,
          List.filter_map, List.head?_map, Function.comp_def, List.drop_succ_cons, ih,
          Option.map_map]

/-- The window starting positions are listed in strictly increasing order,
so the head of `winStarts` is the leftmost window. -/
lemma winStarts_sorted (k : Nat) (s : List Char) :
    (winStarts k s).Sorted (· < ·) :=
  List.Pairwise.filter _ (List.sorted_lt_range _)

/-- Characterization of session construction: it succeeds with the leftmost
9-digit window of the URL as `scribd_id`, and raises `AttributeError` when
the URL has no such window. -/
lemma init_eq_head (url : String) :
    ScribdAudioBook.init url =
      match (nineStarts url.data).head? with
      | some p => Except.ok ⟨url, String.mk ((url.data.drop p).take 9)⟩
      | none => Except.error PyErr.attributeError := by
  have h := reSearch_head 9 (by omega) url.data
  rw [ScribdAudioBook.init, nineStarts, h]
  cases (winStarts 9 url.data).head? <;> simp

/-- Claim C10: content-identifier extraction is eager and leftmost.  For
every URL, session construction is a pure function of the URL alone (no
network argument appears in `ScribdAudioBook.init`): it yields the 9-digit
window at the first position of `nineStarts` (windows are listed in strictly
increasing position order, so this is the leftmost window — in particular a
run longer than 9 digits contributes its first 9 digits), and when the URL
has no 9-digit window, construction itself fails. -/
theorem scribd_id_leftmost_extraction (url : String) :
    (ScribdAudioBook.init url =
      match (nineStarts url.data).head? with
      | some p => Except.ok ⟨url, String.mk ((url.data.drop p).take 9)⟩
      | none => Except.error PyErr.attributeError) ∧
    (nineStarts url.data).Sorted (· < ·) :=
  ⟨init_eq_head url, winStarts_sorted 9 url.data⟩

/-- Claim C2, counterexample to the claim as stated: for a URL with no
9-digit run, construction fails with the generic `AttributeError` raised by
calling `.group()` on the `None` result of `re.search` — not with a
dedicated, distinguishable `IdentifierNotFound` error (no code path produces
one). -/
theorem no_nine_digit_run_attribute_error :
    ScribdAudioBook.init "https://www.scribd.com/audiobooks/no-digits-here"
        = Except.error PyErr.attributeError ∧
    PyErr.attributeError ≠ PyErr.identifierNotFound :=
  ⟨rfl, by decide⟩

/-- Claim C2 (amended): for every URL whose 9-digit windows are exactly one
(`nineStarts = [p]`), construction extracts that window as `scribd_id`; for
every URL with no 9-digit window, construction fails — but with the generic
`AttributeError`, not a dedicated `IdentifierNotFound` error. -/
theorem scribd_id_unique_run_and_failure (url₁ url₂ : String) (p : Nat)
    (h1 : nineStarts url₁.data = [p])
    (h0 : nineStarts url₂.data = []) :
    ScribdAudioBook.init url₁
        = Except.ok ⟨url₁, String.mk ((url₁.data.drop p).take 9)⟩ ∧
    ScribdAudioBook.init url₂ = Except.error PyErr.attributeError := by
  constructor
  · rw [init_eq_head url₁, h1]
    rfl
  · rw [init_eq_head url₂, h0]
    rfl

/-- Witness for claim C2: a URL with exactly one 9-digit run (at position 14)
and a URL with none, evaluated concretely. -/
theorem scribd_id_unique_run_witness :
    nineStarts "https://x.com/123456789/My-Great-Book".data = [14] ∧
    nineStarts "https://x.com/abc".data = [] ∧
    ScribdAudioBook.init "https://x.com/123456789/My-Great-Book"
        = Except.ok ⟨"https://x.com/123456789/My-Great-Book", "123456789"⟩ ∧
    ScribdAudioBook.init "https://x.com/abc" = Except.error PyErr.attributeError := by
  refine ⟨rfl, rfl, ?_, ?_⟩
  · exact (scribd_id_unique_run_and_failure "https://x.com/123456789/My-Great-Book"
      "https://x.com/abc" 14 rfl rfl).1
  · exact (scribd_id_unique_run_and_failure "https://x.com/123456789/My-Great-Book"
      "https://x.com/abc" 14 rfl rfl).2

/-- Claim C1: when the author id resolved to `None`, `make_playlist` returns
the synthesized single-entry record — regardless of the preview URL and of
whatever the premium endpoint would have answered — whose only entry has the
preview URL as `url` and the literal `"preview"` as both `part_number` and
`chapter_number`. -/
theorem make_playlist_fallback_preview (preview_url : String) (pr : PlaylistRec) :
    make_playlist none preview_url pr = fallbackPlaylist preview_url ∧
    (make_playlist none preview_url pr).playlist.length = 1 ∧
    (make_playlist none preview_url pr).playlist
        = [⟨preview_url, "preview", "preview"⟩] := by
  refine ⟨rfl, rfl, rfl⟩

/-- Claim C3, counterexample to the claim as stated: on the spec example URL
(which ends in a slash), the title property computes the empty string, not
`"My Great Book"`, because `list.remove` deletes only the first empty
segment and the trailing empty segment remains last. -/
theorem title_trailing_slash_empty :
    computeTitle "https://x.com/123456789/My-Great-Book/" = Except.ok "" ∧
    ("" : String) ≠ "My Great Book" :=
  ⟨rfl, by decide⟩

/-- Claim C3 (amended): the code splits the URL on a slash, removes only the
FIRST empty segment, takes the last segment and replaces hyphens with
spaces; the example URL without its trailing slash yields title
`"My Great Book"` and file-name stem `"My_Great_Book"`, while the spec
example with the trailing slash yields the empty title; and deriving the
title twice from the same URL through the memoized accessor gives the same
result. -/
theorem title_derivation_amended :
    computeTitle "https://x.com/123456789/My-Great-Book" = Except.ok "My Great Book" ∧
    titleStem "My Great Book" = "My_Great_Book" ∧
    computeTitle "https://x.com/123456789/My-Great-Book/" = Except.ok "" ∧
    ∀ url : String,
      (title_access url (title_access url none).2.1).1 = (title_access url none).1 := by
  refine ⟨rfl, rfl, rfl, ?_⟩
  intro url
  unfold title_access memoAccess
  cases h : computeTitle url with
  | ok t =>
      by_cases ht : t = "" <;> simp [pyTruthy, h, ht]
  | error e =>
      simp [pyTruthy, h]

/-- Claim C4: constructing a `Playlist` from a server record wraps the
entries of its playlist array one-for-one and in order — same length, and at
every index the url, part number and chapter number are taken unchanged —
so the builder never reorders, drops or deduplicates entries. -/
theorem playlist_init_preserves_entries (title : String) (pr : PlaylistRec) :
    (Playlist.init title pr).tracks.length = pr.playlist.length ∧
    (Playlist.init title pr).download_paths = [] ∧
    ∀ i : Nat,
      ((Playlist.init title pr).tracks[i]?).map Track.url
          = (pr.playlist[i]?).map TrackRec.url ∧
      ((Playlist.init title pr).tracks[i]?).map Track.part_number
          = (pr.playlist[i]?).map TrackRec.part_number ∧
      ((Playlist.init title pr).tracks[i]?).map Track.chapter_number
          = (pr.playlist[i]?).map TrackRec.chapter_number := by
  refine ⟨by simp [Playlist.init], rfl, ?_⟩
  intro i
  cases h : pr.playlist[i]? <;>
    simp [Playlist.init, List.getElem?_map, h, Track.init]

/-- Claim C9: the premium-versus-fallback branch of `make_playlist` is
determined solely by the truthiness of the resolved author id: two sessions
whose author ids have the same truthiness produce the same result from the
same inputs, `premium_cookies` is exactly that truthiness, and a falsy
author id (`None` or the empty string) always routes to the preview
fallback. -/
theorem make_playlist_branch_truthiness (a₁ a₂ : Option String)
    (pv : String) (pr : PlaylistRec)
    (h : pyTruthy a₁ = pyTruthy a₂) :
    make_playlist a₁ pv pr = make_playlist a₂ pv pr ∧
    premium_cookies a₁ = pyTruthy a₁ ∧
    make_playlist none pv pr = fallbackPlaylist pv ∧
    make_playlist (some "") pv pr = fallbackPlaylist pv := by
  refine ⟨?_, rfl, rfl, ?_⟩
  · unfold make_playlist premium_cookies
    rw [h]
  · unfold make_playlist premium_cookies pyTruthy
    simp

/-- Witness for claim C9: the empty-string author id and the `None` author
id have the same truthiness and take the same (fallback) branch. -/
theorem make_playlist_branch_witness :
    pyTruthy (some "") = pyTruthy none ∧
    make_playlist (some "") "pv" (fallbackPlaylist "x")
        = make_playlist none "pv" (fallbackPlaylist "x") :=
  ⟨rfl, (make_playlist_branch_truthiness (some "") none "pv"
      (fallbackPlaylist "x") rfl).1⟩

/-- When every transfer from position `i` on succeeds, the download loop
appends exactly one path per track, in order. -/
lemma downloadLoop_all_ok (title : String) (ok : Nat → Bool) :
    ∀ (ts : List Track) (i : Nat) (acc : List String),
      (∀ j, j < ts.length → ok (i + j) = true) →
      downloadLoop title ok i ts acc = (acc ++ ts.map (trackPath title), true)
  | [], i, acc, _ => by simp [downloadLoop]
  | t :: ts, i, acc, h => by
      have h0 : ok i = true := by
        have := h 0 (by simp)
        simpa using this
      have ih := downloadLoop_all_ok title ok ts (i + 1) (acc ++ [trackPath title t])
        (fun j hj => by
          have := h (j + 1) (by simpa using Nat.succ_lt_succ hj)
          have e : i + (j + 1) = i + 1 + j := by omega
          rwa [e] at this)
      simp [downloadLoop, h0, ih]

/-- When the first failing transfer is the one at offset `k`, the download
loop stops there having appended exactly the paths of the first `k`
tracks. -/
lemma downloadLoop_fail_at (title : String) (ok : Nat → Bool) :
    ∀ (ts : List Track) (k i : Nat) (acc : List String),
      k < ts.length →
      (∀ j, j < k → ok (i + j) = true) →
      ok (i + k) = false →
      downloadLoop title ok i ts acc
        = (acc ++ (ts.take k).map (trackPath title), false)
  | [], k, i, acc, hk, _, _ => by simp at hk
  | t :: ts, 0, i, acc, hk, hpre, hfail => by
      have h0 : ok i = false := by simpa using hfail
      simp [downloadLoop, h0]
  | t :: ts, k + 1, i, acc, hk, hpre, hfail => by
      have h0 : ok i = true := by
        have := hpre 0 (by omega)
        simpa using this
      have ih := downloadLoop_fail_at title ok ts k (i + 1) (acc ++ [trackPath title t])
        (by simpa using Nat.lt_of_succ_lt_succ hk)
        (fun j hj => by
          have := hpre (j + 1) (by omega)
          have e : i + (j + 1) = i + 1 + j := by omega
          rwa [e] at this)
        (by
          have e : i + (k + 1) = i + 1 + k := by omega
          rwa [e] at hfail)
      simp [downloadLoop, h0, ih]

/-- Claim C5: when every track transfer succeeds, `Playlist.download`
records exactly one output path per track, in playlist order: afterwards
`download_paths` has the same length as the track list and its i-th entry
is the title, an underscore, the chapter number of track i, and the
`.mp3` suffix. -/
theorem download_all_success_paths (p : Playlist) (ok : Nat → Bool)
    (hfresh : p.download_paths = [])
    (hok : ∀ i, i < p.tracks.length → ok i = true) :
    (p.downloadRun ok).2 = true ∧
    (p.downloadRun ok).1.download_paths = p.tracks.map (trackPath p.title) ∧
    (p.downloadRun ok).1.download_paths.length = p.tracks.length ∧
    ∀ i : Nat, ((p.downloadRun ok).1.download_paths[i]?)
        = (p.tracks[i]?).map (trackPath p.title) := by
  have h := downloadLoop_all_ok p.title ok p.tracks 0 p.download_paths
    (fun j hj => by simpa using hok j hj)
  rw [hfresh] at h
  unfold Playlist.downloadRun
  rw [hfresh, h]
  refine ⟨rfl, by simp, by simp, ?_⟩
  intro i
  simp [List.getElem?_map]

/-- Witness for claim C5: a concrete two-track playlist under an
all-successful transfer oracle produces both expected paths. -/
theorem download_all_success_witness :
    ([] : List String) = [] ∧
    (∀ i, i < ((⟨"T", [⟨"u1", "1", "1"⟩, ⟨"u2", "2", "2"⟩], []⟩ : Playlist)).tracks.length
        → (fun _ => true) i = true) ∧
    ((⟨"T", [⟨"u1", "1", "1"⟩, ⟨"u2", "2", "2"⟩], []⟩ : Playlist).downloadRun
        (fun _ => true)).1.download_paths = ["T_1.mp3", "T_2.mp3"] := by
  refine ⟨rfl, fun i _ => rfl, ?_⟩
  have h := download_all_success_paths
    (⟨"T", [⟨"u1", "1", "1"⟩, ⟨"u2", "2", "2"⟩], []⟩ : Playlist)
    (fun _ => true) rfl (fun i _ => rfl)
  rw [h.2.1]
  rfl

/-- Claim C6: if the transfer of track k (0-based) fails after tracks
0..k-1 succeeded, `Playlist.download` aborts without attempting later
tracks, and `download_paths` afterwards contains exactly the paths of
tracks 0..k-1 in order; its length is k, never exceeds the number of
tracks, and each recorded path corresponds index-for-index to a completed
track in traversal order. -/
theorem download_abort_on_failure (p : Playlist) (ok : Nat → Bool) (k : Nat)
    (hfresh : p.download_paths = [])
    (hk : k < p.tracks.length)
    (hpre : ∀ j, j < k → ok j = true)
    (hfail : ok k = false) :
    (p.downloadRun ok).2 = false ∧
    (p.downloadRun ok).1.download_paths = (p.tracks.take k).map (trackPath p.title) ∧
    (p.downloadRun ok).1.download_paths.length = k ∧
    (p.downloadRun ok).1.download_paths.length ≤ p.tracks.length ∧
    ∀ i : Nat, ((p.downloadRun ok).1.download_paths[i]?)
        = ((p.tracks.take k)[i]?).map (trackPath p.title) := by
  have h := downloadLoop_fail_at p.title ok p.tracks k 0 p.download_paths hk
    (fun j hj => by simpa using hpre j hj) (by simpa using hfail)
  rw [hfresh] at h
  unfold Playlist.downloadRun
  rw [hfresh, h]
  refine ⟨rfl, by simp, ?_, ?_, ?_⟩
  · simp [List.length_take]
    omega
  · simp [List.length_take]
  · intro i
    simp [← List.map_take, List.getElem?_map]

/-- Witness for claim C6: a concrete three-track playlist whose second
transfer fails ends with exactly the first path recorded. -/
theorem download_abort_witness :
    ((⟨"T", [⟨"u1", "1", "1"⟩, ⟨"u2", "2", "2"⟩, ⟨"u3", "3", "3"⟩], []⟩ :
        Playlist).downloadRun (fun i => decide (i < 1))).2 = false ∧
    ((⟨"T", [⟨"u1", "1", "1"⟩, ⟨"u2", "2", "2"⟩, ⟨"u3", "3", "3"⟩], []⟩ :
        Playlist).downloadRun (fun i => decide (i < 1))).1.download_paths
      = ["T_1.mp3"] := by
  have h := download_abort_on_failure
    (⟨"T", [⟨"u1", "1", "1"⟩, ⟨"u2", "2", "2"⟩, ⟨"u3", "3", "3"⟩], []⟩ : Playlist)
    (fun i => decide (i < 1)) 1 rfl (by decide)
    (fun j hj => by simpa using hj) rfl
  refine ⟨h.1, ?_⟩
  rw [h.2.1]
  rfl

/-- Claim C7: when the license-endpoint response lacks the licenses key or
its licenses list is empty, the (unmemoized) license id access fails —
`KeyError` or `IndexError`, never an ok result, hence never a silently
empty or default license id — and the memo field remains unset. -/
theorem license_missing_record_errors (resp : LicenseResponse)
    (h : resp.licenses = none ∨ resp.licenses = some []) :
    (license_id_access resp none).2.1 = none ∧
    (license_id_access resp none).2.2 = true ∧
    ((license_id_access resp none).1 = Except.error PyErr.keyError ∨
     (license_id_access resp none).1 = Except.error PyErr.indexError) ∧
    (license_id_access resp none).1.isOk = false := by
  obtain ⟨ls⟩ := resp
  rcases h with h | h
  · have h' : ls = none := h
    subst h'
    exact ⟨rfl, rfl, Or.inl rfl, rfl⟩
  · have h' : ls = some [] := h
    subst h'
    exact ⟨rfl, rfl, Or.inr rfl, rfl⟩

/-- Witness for claim C7: the response whose body lacks the licenses key,
evaluated concretely. -/
theorem license_missing_record_witness :
    ((⟨none⟩ : LicenseResponse).licenses = none ∨
     (⟨none⟩ : LicenseResponse).licenses = some []) ∧
    (license_id_access ⟨none⟩ none).2.1 = none ∧
    (license_id_access ⟨none⟩ none).1.isOk = false := by
  refine ⟨Or.inl rfl, ?_, ?_⟩
  · exact (license_missing_record_errors ⟨none⟩ (Or.inl rfl)).1
  · exact (license_missing_record_errors ⟨none⟩ (Or.inl rfl)).2.2.2

/-- Claim C8, counterexample to the claim as stated: for a session whose
author id resolved to `None`, the first access computes `None`, and the
second access runs the property body again (its recomputation flag is
`true`), because the memo guard tests truthiness and `None` is falsy — so
the field is not computed at most once per session. -/
theorem author_id_recomputed_each_access :
    (author_id_access ⟨"pv", "12345", none⟩ none).1 = none ∧
    (author_id_access ⟨"pv", "12345", none⟩ none).2.2 = true ∧
    (author_id_access ⟨"pv", "12345", none⟩
        ((author_id_access ⟨"pv", "12345", none⟩ none).2.1)).2.2 = true :=
  ⟨rfl, rfl, rfl⟩

/-- Claim C8 (amended): the derived-field accessors are memoized by
truthiness.  Once a truthy value is cached, later accesses return it with
no recomputation; repeated access always returns the same value (the
computation is deterministic in the inputs it depends on), both for the
string-valued fields and for the nullable author id; and the three URL
fields always compute nonempty (hence truthy) strings, so they are
effectively computed at most once.  Only a falsy computed value (`None` or
the empty string) is recomputed on later accesses. -/
theorem memo_truthy_memoization (c : Except PyErr String) (t : String)
    (ht : t ≠ "") (k : AudiobookKeys) (sid a b : String) :
    memoAccess c (some t) = (Except.ok t, some t, false) ∧
    (memoAccess c ((memoAccess c none).2.1)).1 = (memoAccess c none).1 ∧
    (author_id_access k ((author_id_access k none).2.1)).1
        = (author_id_access k none).1 ∧
    authenticate_url_compute sid ≠ "" ∧
    license_url_compute a b ≠ "" ∧
    playlist_url_compute b ≠ "" := by
  refine ⟨?_, ?_, ?_, ?_, ?_, ?_⟩
  · simp [memoAccess, pyTruthy, ht]
  · unfold memoAccess
    cases hc : c with
    | ok v =>
        by_cases hv : v = "" <;> simp [pyTruthy, hv]
    | error e => simp [pyTruthy]
  · cases hk : k.author_id with
    | none => simp [author_id_access, pyTruthy, hk]
    | some v =>
        by_cases hv : v = "" <;> simp [author_id_access, pyTruthy, hk, hv]
  · intro hes
    have h1 : ("https://www.scribd.com/listen/" ++ sid).length
        = ("" : String).length := by rw [authenticate_url_compute] at hes; rw [hes]
    rw [String.length_append] at h1
    have h2 : ("https://www.scribd.com/listen/").length = 30 := rfl
    have h3 : ("" : String).length = 0 := rfl
    omega
  · intro hes
    have h1 : ("https://api.findawayworld.com/v4/accounts/scribd-" ++ a
        ++ "/audiobooks/" ++ b).length = ("" : String).length := by
      rw [license_url_compute] at hes; rw [hes]
    rw [String.length_append, String.length_append, String.length_append] at h1
    have h2 : ("https://api.findawayworld.com/v4/accounts/scribd-").length = 49 := rfl
    have h3 : ("/audiobooks/").length = 12 := rfl
    have h4 : ("" : String).length = 0 := rfl
    omega
  · intro hes
    have h1 : ("https://api.findawayworld.com/v4/audiobooks/" ++ b
        ++ "/playlists").length = ("" : String).length := by
      rw [playlist_url_compute] at hes; rw [hes]
    rw [String.length_append, String.length_append] at h1
    have h2 : ("https://api.findawayworld.com/v4/audiobooks/").length = 44 := rfl
    have h3 : ("/playlists").length = 10 := rfl
    have h4 : ("" : String).length = 0 := rfl
    omega

/-- Witness for claim C8: a truthy cached title is returned unchanged with
no recomputation. -/
theorem memo_truthy_memoization_witness :
    ("My Great Book" : String) ≠ "" ∧
    memoAccess (Except.ok "x") (some "My Great Book")
        = (Except.ok "My Great Book", some "My Great Book", false) := by
  refine ⟨by decide, ?_⟩
  exact (memo_truthy_memoization (Except.ok "x") "My Great Book" (by decide)
    ⟨"pv", "12345", none⟩ "123456789" "11223344" "55667").1

end Scribdl
